import Mathlib

/-!
Verification of the fast-trips transfer-link pipeline (fasttrips/Transfer.py).

The pandas relations are embedded as lists of records.  A DataFrame row of
the merged transfers relation becomes a TransferRow; the base feed rows
(gtfs transfer records) become GtfsTransfer values and the rows of the
supplemental transfers_ft.txt file become TransferFtRow values.  Numeric
columns that pandas stores as floats are modelled as rational numbers; the
string-to-float coercion of min_transfer_time (lines 110-115 of the source)
is assumed to have happened when a GtfsTransfer value is built.  The numeric
stop-id resolver (Stop.add_numeric_stop_id, defined outside this file's
sources) is passed in as a function from string ids to optional integers.
The output directory is a mutable map from file names to file contents,
embedded as an association list.
-/

namespace FastTrips

/-- One base-feed (gtfs) transfer record, with min_transfer_time already
coerced from string to a number (empty string means 0). -/
structure GtfsTransfer where
  from_stop_id : String
  to_stop_id : String
  transfer_type : Int
  min_transfer_time : ℚ
  deriving DecidableEq, Repr

/-- The six required columns of one supplemental transfers_ft.txt row.
The optional columns the file may also carry are modelled by
SupplementalRow below. -/
structure TransferFtRow where
  from_stop_id : String
  to_stop_id : String
  dist : ℚ
  from_route_id : String
  to_route_id : String
  schedule_precedence : String
  deriving DecidableEq, Repr

/-- One full row of the supplemental transfers_ft.txt file: the six
required columns plus the optional transfer_type and min_transfer_time
columns the file format allows.  An optional cell is none when its
column is absent from the file or the cell is empty (NaN); whether a
column is present in the file at all is recorded in the column list the
load receives. -/
structure SupplementalRow where
  req : TransferFtRow
  transfer_type : Option Int
  min_transfer_time : Option ℚ
  deriving DecidableEq, Repr

/-- One row of the merged transfers relation (transfers_df).  Fields added
later in the pipeline (numeric ids, derived times, penalty) carry neutral
defaults until the corresponding pipeline stage fills them. -/
structure TransferRow where
  from_stop_id : String
  to_stop_id : String
  transfer_type : Int
  min_transfer_time : ℚ
  dist : ℚ
  from_route_id : String
  to_route_id : String
  schedule_precedence : String
  from_stop_id_num : Option Int
  to_stop_id_num : Option Int
  min_transfer_time_min : ℚ
  time_min : ℚ
  time : ℚ
  transfer_penalty : ℚ
  deriving DecidableEq, Repr

/-- The ways the load can fail: a bare Python assert (no message), a
NetworkInputError carrying the source file name and a diagnostic, or a
pandas KeyError on a missing column. -/
inductive LoadError where
  | assertionError : LoadError
  | networkInput (file : String) (msg : String) : LoadError
  | keyError (col : String) : LoadError
  deriving DecidableEq, Repr

deriving instance DecidableEq for Except

/-- True exactly on the NetworkInputError constructor. -/
def LoadError.isNetworkInput : LoadError → Bool
  | .networkInput _ _ => true
  | _ => false

def INPUT_TRANSFERS_FILE : String := "transfers_ft.txt"

def OUTPUT_TRANSFERS_FILE : String := "ft_intermediate_transfers.txt"

def TRANSFERS_COLUMN_FROM_STOP : String := "from_stop_id"

def TRANSFERS_COLUMN_TO_STOP : String := "to_stop_id"

def TRANSFERS_COLUMN_TRANSFER_TYPE : String := "transfer_type"

def TRANSFERS_COLUMN_MIN_TRANSFER_TIME : String := "min_transfer_time"

def TRANSFERS_COLUMN_DISTANCE : String := "dist"

def TRANSFERS_COLUMN_FROM_ROUTE : String := "from_route_id"

def TRANSFERS_COLUMN_TO_ROUTE : String := "to_route_id"

def TRANSFERS_COLUMN_SCHEDULE_PRECEDENCE : String := "schedule_precedence"

def TRANSFERS_COLUMN_MIN_TRANSFER_TIME_MIN : String := "min_transfer_time_min"

def TRANSFERS_COLUMN_TIME_MIN : String := "time_min"

def TRANSFERS_COLUMN_PENALTY : String := "transfer_penalty"

def WALK_SPEED_MILES_PER_HOUR : ℚ := 3

/-- The six columns the source asserts on (Transfer.py lines 134-139). -/
def requiredTransferCols : List String :=
  [TRANSFERS_COLUMN_FROM_STOP, TRANSFERS_COLUMN_TO_STOP,
   TRANSFERS_COLUMN_DISTANCE, TRANSFERS_COLUMN_FROM_ROUTE,
   TRANSFERS_COLUMN_TO_ROUTE, TRANSFERS_COLUMN_SCHEDULE_PRECEDENCE]

/-- Column validation of the supplemental file (Transfer.py lines 132-139):
a sequence of bare assert statements, each raising a plain AssertionError
when its column is absent. -/
def checkRequiredColumns (suppCols : List String) : Except LoadError Unit :=
  if requiredTransferCols.all (fun c => suppCols.contains c) then .ok ()
  else .error .assertionError

/-- Zero out min_transfer_time when transfer_type is not 2
(Transfer.py lines 117-119). -/
def prepBase (b : GtfsTransfer) : GtfsTransfer :=
  if b.transfer_type ≠ 2 then { b with min_transfer_time := 0 } else b

/-- A merged row built from a base-feed match of a supplemental row. -/
def mergedOfMatch (b : GtfsTransfer) (s : TransferFtRow) : TransferRow :=
  { from_stop_id := s.from_stop_id
    to_stop_id := s.to_stop_id
    transfer_type := b.transfer_type
    min_transfer_time := b.min_transfer_time
    dist := s.dist
    from_route_id := s.from_route_id
    to_route_id := s.to_route_id
    schedule_precedence := s.schedule_precedence
    from_stop_id_num := none
    to_stop_id_num := none
    min_transfer_time_min := 0
    time_min := 0
    time := 0
    transfer_penalty := 0 }

/-- A merged row built from a supplemental row with no base-feed match:
the fillna step (Transfer.py lines 150-153) turns the missing
min_transfer_time and transfer_type into 0. -/
def mergedOfSuppOnly (s : TransferFtRow) : TransferRow :=
  { from_stop_id := s.from_stop_id
    to_stop_id := s.to_stop_id
    transfer_type := 0
    min_transfer_time := 0
    dist := s.dist
    from_route_id := s.from_route_id
    to_route_id := s.to_route_id
    schedule_precedence := s.schedule_precedence
    from_stop_id_num := none
    to_stop_id_num := none
    min_transfer_time_min := 0
    time_min := 0
    time := 0
    transfer_penalty := 0 }

/-- A merged row of the empty-base-feed load when the supplemental file
carries both optional columns: the join keeps only the supplemental rows,
every column of the merged relation comes from the supplemental side, and
fillna (Transfer.py lines 151-153) turns empty transfer_type and
min_transfer_time cells into 0.  The zeroing of lines 117-119 never runs
here because it sits inside the nonempty-base-feed branch. -/
def mergedOfSuppDriven (s : SupplementalRow) : TransferRow :=
  { from_stop_id := s.req.from_stop_id
    to_stop_id := s.req.to_stop_id
    transfer_type := s.transfer_type.getD 0
    min_transfer_time := s.min_transfer_time.getD 0
    dist := s.req.dist
    from_route_id := s.req.from_route_id
    to_route_id := s.req.to_route_id
    schedule_precedence := s.req.schedule_precedence
    from_stop_id_num := none
    to_stop_id_num := none
    min_transfer_time_min := 0
    time_min := 0
    time := 0
    transfer_penalty := 0 }

/-- Whether a base-feed row matches the join key of a supplemental row. -/
def matchKey (s : TransferFtRow) (b : GtfsTransfer) : Bool :=
  b.from_stop_id == s.from_stop_id && b.to_stop_id == s.to_stop_id

/-- The right join of Transfer.py lines 145-153, keyed on
(from_stop_id, to_stop_id): every supplemental row survives, matched once
per matching base-feed row, and base-feed rows with no supplemental
counterpart do not appear. -/
def mergeRight (base : List GtfsTransfer) (supp : List TransferFtRow) :
    List TransferRow :=
  supp.flatMap (fun s =>
    let ms := base.filter (matchKey s)
    if ms.isEmpty then [mergedOfSuppOnly s]
    else ms.map (fun b => mergedOfMatch b s))

/-- The supplemental-file part of a merged row, recovering the
TransferFtRow whose fields the join copied into it. -/
def suppPart (m : TransferRow) : TransferFtRow :=
  { from_stop_id := m.from_stop_id
    to_stop_id := m.to_stop_id
    dist := m.dist
    from_route_id := m.from_route_id
    to_route_id := m.to_route_id
    schedule_precedence := m.schedule_precedence }

/-- Assign the constant transfer penalty 1.0 (Transfer.py line 156). -/
def setPenalty (r : TransferRow) : TransferRow :=
  { r with transfer_penalty := 1 }

/-- Derive min_transfer_time_min and the distance-based time_min
(Transfer.py lines 163-168). -/
def deriveRow (r : TransferRow) : TransferRow :=
  { r with
    min_transfer_time_min := r.min_transfer_time / 60
    time_min := r.dist * 60 / WALK_SPEED_MILES_PER_HOUR }

/-- Floor time_min by min_transfer_time_min (Transfer.py lines 180-182). -/
def floorRow (r : TransferRow) : TransferRow :=
  if r.time_min < r.min_transfer_time_min then
    { r with time_min := r.min_transfer_time_min }
  else r

/-- Mirror time_min into the timedelta column (Transfer.py lines 185-186);
the timedelta is represented by its value in minutes. -/
def setTime (r : TransferRow) : TransferRow :=
  { r with time := r.time_min }

/-- The diagnostic of the sanity-check failure (Transfer.py lines 174-175). -/
def longTransfersMsg (nLong nTotal : Nat) : String :=
  "Found " ++ toString nLong ++ " excessively long transfer links out of " ++
    toString nTotal ++
    " total transfer links. Expected distances are in miles. Unit problem?"

/-- The enrichment stage (Transfer.py lines 162-186): skipped on an empty
relation; otherwise derive the time columns, abort with a
NetworkInputError naming transfers_ft.txt when any derived time exceeds
780 minutes, and otherwise floor time_min and fill the timedelta column. -/
def enrich (rows : List TransferRow) : Except LoadError (List TransferRow) :=
  if rows.isEmpty then .ok rows
  else if ((rows.map deriveRow).filter
      (fun r => decide (r.time_min > 780))).isEmpty then
    .ok (((rows.map deriveRow).map floorRow).map setTime)
  else
    .error (.networkInput INPUT_TRANSFERS_FILE
      (longTransfersMsg
        ((rows.map deriveRow).filter
          (fun r => decide (r.time_min > 780))).length
        (rows.map deriveRow).length))

/-- The whole load (Transfer constructor, Transfer.py lines 92-192).
The branches follow the pandas column bookkeeping of the source:
- a missing required column fails the asserts of lines 134-139;
- an empty supplemental relation skips the join (line 144); a nonempty
  base feed then reaches line 167 without a dist column and dies with a
  KeyError, while an empty base feed leaves the zero-row placeholder of
  lines 122-127, whose enrichment is skipped;
- with an empty base feed, that placeholder declares neither
  min_transfer_time nor transfer_type, and fillna (lines 151-153) only
  fills cells of existing columns.  Unless the supplemental file itself
  carries the min_transfer_time column, the access at line 163 dies with
  a KeyError before the sanity check.  If it carries min_transfer_time
  but not transfer_type, the constructor itself completes, but the
  relation it builds has no transfer_type column, a shape the fixed row
  schema of this embedding cannot carry; the mandatory export step then
  dies at its first access of that column (line 240), and the embedding
  reports that KeyError at the load boundary.  With both optional
  columns present the load proceeds on supplemental values alone;
- with a nonempty base feed, a supplemental min_transfer_time or
  transfer_type column collides with the base-feed column of the same
  name and the merge keeps only suffixed variants of both, so the
  plain-name access dies with a KeyError (at line 163 for
  min_transfer_time, during the load; at line 240 for transfer_type,
  again reported here at the load boundary);
- otherwise the prepared base feed is right-joined to the required part
  of the supplemental rows, the penalty is assigned and the enrichment
  stage runs. -/
def loadTransfers (base : List GtfsTransfer) (suppCols : List String)
    (supp : List SupplementalRow) : Except LoadError (List TransferRow) :=
  match checkRequiredColumns suppCols with
  | .error e => .error e
  | .ok _ =>
    if supp.isEmpty then
      if base.isEmpty then .ok []
      else .error (.keyError TRANSFERS_COLUMN_DISTANCE)
    else if base.isEmpty then
      if suppCols.contains TRANSFERS_COLUMN_MIN_TRANSFER_TIME then
        if suppCols.contains TRANSFERS_COLUMN_TRANSFER_TYPE then
          enrich ((supp.map mergedOfSuppDriven).map setPenalty)
        else .error (.keyError TRANSFERS_COLUMN_TRANSFER_TYPE)
      else .error (.keyError TRANSFERS_COLUMN_MIN_TRANSFER_TIME)
    else
      if suppCols.contains TRANSFERS_COLUMN_MIN_TRANSFER_TIME then
        .error (.keyError TRANSFERS_COLUMN_MIN_TRANSFER_TIME)
      else if suppCols.contains TRANSFERS_COLUMN_TRANSFER_TYPE then
        .error (.keyError TRANSFERS_COLUMN_TRANSFER_TYPE)
      else
        enrich ((mergeRight (base.map prepBase)
          (supp.map SupplementalRow.req)).map setPenalty)

/-- The Transfer object state: the output directory and the shared
transfers relation. -/
structure TransferState where
  output_dir : String
  transfers_df : List TransferRow
  deriving DecidableEq, Repr

/-- The output directory contents: file name to file content. -/
def FS : Type := List (String × String)

instance : DecidableEq FS :=
  inferInstanceAs (DecidableEq (List (String × String)))

/-- Writing a file truncates any previous content under the same name. -/
def fsWrite (fs : FS) (name content : String) : FS :=
  (name, content) :: fs.filter (fun p => p.1 ≠ name)

/-- Modelled from the spec: Stop.add_numeric_stop_id (Stop.py is not among
the sources here) attaches the resolver output for one string stop-id
column to a new numeric column; ids the resolver does not know produce a
warning and are left unresolved, and every row is retained. -/
def resolveColumn (resolver : String → Option Int)
    (get : TransferRow → String) (put : TransferRow → Option Int → TransferRow)
    (rows : List TransferRow) : List TransferRow :=
  rows.map (fun r => put r (resolver (get r)))

/-- One reshaped output row of the long key/value export form. -/
structure OutRow where
  from_stop_id_num : Option Int
  to_stop_id_num : Option Int
  attr_name : String
  attr_value : ℚ
  deriving DecidableEq, Repr

/-- The attribute columns surviving the export drop (Transfer.py lines
242-253), in DataFrame column order, including the walk_time_min alias of
time_min appended before the reshape. -/
def transferAttrs (r : TransferRow) : List (String × ℚ) :=
  [(TRANSFERS_COLUMN_TRANSFER_TYPE, (r.transfer_type : ℚ)),
   (TRANSFERS_COLUMN_DISTANCE, r.dist),
   (TRANSFERS_COLUMN_PENALTY, r.transfer_penalty),
   (TRANSFERS_COLUMN_MIN_TRANSFER_TIME_MIN, r.min_transfer_time_min),
   (TRANSFERS_COLUMN_TIME_MIN, r.time_min),
   ("walk_time_min", r.time_min)]

/-- The reshape of Transfer.py lines 238-261: drop the rows with
transfer_type 3, then stack each remaining row into one output row per
surviving attribute column, keyed by the numeric stop ids. -/
def exportRows (rows : List TransferRow) : List OutRow :=
  (rows.filter (fun r => decide (r.transfer_type ≠ 3))).flatMap (fun r =>
    (transferAttrs r).map (fun av =>
      { from_stop_id_num := r.from_stop_id_num
        to_stop_id_num := r.to_stop_id_num
        attr_name := av.1
        attr_value := av.2 }))

/-- Rendering of a numeric stop id cell; an unresolved id shows as NaN. -/
def idCell : Option Int → String
  | some n => toString n
  | none => "NaN"

/-- Rendering of a rational attribute value. -/
def ratCell (q : ℚ) : String :=
  toString q.num ++ "/" ++ toString q.den

/-- One space-delimited line of the export file. -/
def outRowLine (o : OutRow) : String :=
  idCell o.from_stop_id_num ++ " " ++ idCell o.to_stop_id_num ++ " " ++
    o.attr_name ++ " " ++ ratCell o.attr_value

/-- The bytes of the export file: header then one line per output row. -/
def serializeTransfers (rows : List TransferRow) : String :=
  String.intercalate "\n"
    ("from_stop_id_num to_stop_id_num attr_name attr_value" ::
      (exportRows rows).map outRowLine)

/-- Transfer.write_transfers_for_extension (Transfer.py lines 231-265):
works on a copy of the shared relation, never reassigns it, and writes the
reshaped export under the fixed name in the output directory. -/
def writeTransfersForExtension (st : TransferState) (fs : FS) :
    TransferState × FS :=
  (st, fsWrite fs (st.output_dir ++ "/" ++ OUTPUT_TRANSFERS_FILE)
    (serializeTransfers st.transfers_df))

/-- Transfer.add_numeric_stop_id (Transfer.py lines 194-212): on an empty
relation nothing happens; otherwise both stop-id columns are resolved and
the export is written as the final action. -/
def addNumericStopId (st : TransferState) (resolver : String → Option Int)
    (fs : FS) : TransferState × FS :=
  if st.transfers_df.isEmpty then (st, fs)
  else
    let rows1 := resolveColumn resolver (fun r => r.from_stop_id)
      (fun r n => { r with from_stop_id_num := n }) st.transfers_df
    let rows2 := resolveColumn resolver (fun r => r.to_stop_id)
      (fun r n => { r with to_stop_id_num := n }) rows1
    writeTransfersForExtension { st with transfers_df := rows2 } fs

/-- The column list of a supplemental file carrying both optional
columns besides the six required ones. -/
def fullCols : List String :=
  requiredTransferCols ++
    [TRANSFERS_COLUMN_TRANSFER_TYPE, TRANSFERS_COLUMN_MIN_TRANSFER_TIME]

/-- Happy-path supplemental file for an empty base feed: one half-mile
link from A to B with transfer_type 0 and an empty min_transfer_time
cell, loaded with both optional columns declared. -/
def suppH : List SupplementalRow :=
  [{ req := { from_stop_id := "A", to_stop_id := "B", dist := 1/2,
              from_route_id := "r1", to_route_id := "r2",
              schedule_precedence := "sp" },
     transfer_type := some 0, min_transfer_time := none }]

/-- The single row the happy-path load produces. -/
def wRow : TransferRow :=
  { from_stop_id := "A", to_stop_id := "B", transfer_type := 0,
    min_transfer_time := 0, dist := 1/2, from_route_id := "r1",
    to_route_id := "r2", schedule_precedence := "sp", from_stop_id_num := none,
    to_stop_id_num := none, min_transfer_time_min := 0, time_min := 10,
    time := 10, transfer_penalty := 1 }

/-- Base feed for the post-floor bound counterexample: a minimum-time
transfer of 60000 seconds. -/
def baseC2 : List GtfsTransfer :=
  [{ from_stop_id := "A", to_stop_id := "B", transfer_type := 2,
     min_transfer_time := 60000 }]

/-- Supplemental file for the post-floor bound counterexample: a short
link whose distance-derived walk time passes the sanity check, with only
the required columns. -/
def suppC2 : List SupplementalRow :=
  [{ req := { from_stop_id := "A", to_stop_id := "B", dist := 1/10,
              from_route_id := "r1", to_route_id := "r2",
              schedule_precedence := "sp" },
     transfer_type := none, min_transfer_time := none }]

/-- The row the counterexample load produces: floored to 1000 minutes. -/
def rowC2 : TransferRow :=
  { from_stop_id := "A", to_stop_id := "B", transfer_type := 2,
    min_transfer_time := 60000, dist := 1/10, from_route_id := "r1",
    to_route_id := "r2", schedule_precedence := "sp", from_stop_id_num := none,
    to_stop_id_num := none, min_transfer_time_min := 1000, time_min := 1000,
    time := 1000, transfer_penalty := 1 }

/-- Two base-feed rows sharing the join key (A, B). -/
def baseDup : List GtfsTransfer :=
  [{ from_stop_id := "A", to_stop_id := "B", transfer_type := 0,
     min_transfer_time := 0 },
   { from_stop_id := "A", to_stop_id := "B", transfer_type := 1,
     min_transfer_time := 60 }]

/-- A single supplemental row keyed (A, B). -/
def sAB : TransferFtRow :=
  { from_stop_id := "A", to_stop_id := "B", dist := 1,
    from_route_id := "r1", to_route_id := "r2", schedule_precedence := "sp" }

/-- A supplemental column list that lacks the distance column. -/
def colsMissingDist : List String :=
  [TRANSFERS_COLUMN_FROM_STOP, TRANSFERS_COLUMN_TO_STOP,
   TRANSFERS_COLUMN_FROM_ROUTE, TRANSFERS_COLUMN_TO_ROUTE,
   TRANSFERS_COLUMN_SCHEDULE_PRECEDENCE]

/-- Supplemental file falsifying the zeroing invariant under an empty
base feed: its own transfer_type and min_transfer_time columns carry a
type-1 transfer with a 600-second minimum time. -/
def suppC4 : List SupplementalRow :=
  [{ req := { from_stop_id := "A", to_stop_id := "B", dist := 1/2,
              from_route_id := "r1", to_route_id := "r2",
              schedule_precedence := "sp" },
     transfer_type := some 1, min_transfer_time := some 600 }]

/-- The row the empty-base load of suppC4 produces: transfer_type 1 with
min_transfer_time 600, never zeroed. -/
def rowC4 : TransferRow :=
  { from_stop_id := "A", to_stop_id := "B", transfer_type := 1,
    min_transfer_time := 600, dist := 1/2, from_route_id := "r1",
    to_route_id := "r2", schedule_precedence := "sp", from_stop_id_num := none,
    to_stop_id_num := none, min_transfer_time_min := 10, time_min := 10,
    time := 10, transfer_penalty := 1 }

/-- A one-row base feed with a type-1 transfer and a nonzero minimum
transfer time, which the load must zero out. -/
def baseW4 : List GtfsTransfer :=
  [{ from_stop_id := "A", to_stop_id := "B", transfer_type := 1,
     min_transfer_time := 300 }]

/-- A required-columns-only supplemental file matching baseW4. -/
def suppW4 : List SupplementalRow :=
  [{ req := { from_stop_id := "A", to_stop_id := "B", dist := 1/2,
              from_route_id := "r1", to_route_id := "r2",
              schedule_precedence := "sp" },
     transfer_type := none, min_transfer_time := none }]

/-- The row the baseW4 load produces: the type-1 minimum time zeroed by
lines 117-119. -/
def rowW4 : TransferRow :=
  { from_stop_id := "A", to_stop_id := "B", transfer_type := 1,
    min_transfer_time := 0, dist := 1/2, from_route_id := "r1",
    to_route_id := "r2", schedule_precedence := "sp", from_stop_id_num := none,
    to_stop_id_num := none, min_transfer_time_min := 0, time_min := 10,
    time := 10, transfer_penalty := 1 }

/-- A resolved infeasible transfer link (transfer_type 3). -/
def rowT3 : TransferRow :=
  { from_stop_id := "A", to_stop_id := "B", transfer_type := 3,
    min_transfer_time := 0, dist := 1/2, from_route_id := "r1",
    to_route_id := "r2", schedule_precedence := "sp",
    from_stop_id_num := some 1, to_stop_id_num := some 2,
    min_transfer_time_min := 0, time_min := 10, time := 10,
    transfer_penalty := 1 }

/-- A resolved feasible transfer link (transfer_type 0). -/
def rowT0 : TransferRow :=
  { from_stop_id := "A", to_stop_id := "B", transfer_type := 0,
    min_transfer_time := 0, dist := 1/2, from_route_id := "r1",
    to_route_id := "r2", schedule_precedence := "sp",
    from_stop_id_num := some 1, to_stop_id_num := some 2,
    min_transfer_time_min := 0, time_min := 10, time := 10,
    transfer_penalty := 1 }

/-- An export state holding one infeasible and one feasible link. -/
def stW : TransferState := { output_dir := "out", transfers_df := [rowT3, rowT0] }

/-- The first reshaped row the export of stW produces. -/
def oW : OutRow :=
  { from_stop_id_num := some 1, to_stop_id_num := some 2,
    attr_name := TRANSFERS_COLUMN_TRANSFER_TYPE, attr_value := 0 }

/-- A state with an empty transfers relation. -/
def stE : TransferState := { output_dir := "out", transfers_df := [] }

/-! Basic lemmas about the pipeline stages. -/

theorem suppPart_mergedOfSuppOnly (s : TransferFtRow) :
    suppPart (mergedOfSuppOnly s) = s := rfl

theorem suppPart_mergedOfMatch (b : GtfsTransfer) (s : TransferFtRow) :
    suppPart (mergedOfMatch b s) = s := rfl

theorem floorRow_min_le_time (r : TransferRow) :
    (floorRow r).min_transfer_time_min ≤ (floorRow r).time_min := by
  unfold floorRow
  split
  · exact le_refl r.min_transfer_time_min
  · next h => exact le_of_not_lt h

theorem floorRow_fields (r : TransferRow) :
    (floorRow r).transfer_type = r.transfer_type ∧
    (floorRow r).min_transfer_time = r.min_transfer_time ∧
    (floorRow r).dist = r.dist ∧
    (floorRow r).min_transfer_time_min = r.min_transfer_time_min := by
  unfold floorRow
  split <;> exact ⟨rfl, rfl, rfl, rfl⟩

theorem floorRow_time_min (r : TransferRow) :
    (floorRow r).time_min = r.min_transfer_time_min ∨
    (floorRow r).time_min = r.time_min := by
  unfold floorRow
  split
  · exact Or.inl rfl
  · exact Or.inr rfl

/-- Shape of a successful enrichment: either nothing happened on an empty
relation, or every derived time was within the bound and the output is the
derived, floored, time-filled relation. -/
theorem enrich_ok_cases (rows out : List TransferRow)
    (h : enrich rows = .ok out) :
    (rows = [] ∧ out = rows) ∨
    ((∀ r ∈ rows.map deriveRow, ¬ (780 : ℚ) < r.time_min) ∧
      out = ((rows.map deriveRow).map floorRow).map setTime) := by
  unfold enrich at h
  by_cases he : rows.isEmpty
  · left
    rw [if_pos he] at h
    exact ⟨List.isEmpty_iff.mp he, (Except.ok.injEq _ _).mp h.symm⟩
  · right
    rw [if_neg he] at h
    by_cases ht :
        ((rows.map deriveRow).filter (fun r => decide (r.time_min > 780))).isEmpty
    · rw [if_pos ht] at h
      refine ⟨?_, ((Except.ok.injEq _ _).mp h).symm⟩
      intro r hr
      have hnil := List.isEmpty_iff.mp ht
      have := List.filter_eq_nil_iff.mp hnil r hr
      simpa using this
    · rw [if_neg ht] at h
      cases h

/-- Membership in a successful enrichment output: every output row is the
time-filled floor of the derivation of some input row. -/
theorem mem_of_enrich_ok (rows out : List TransferRow) (r : TransferRow)
    (h : enrich rows = .ok out) (hr : r ∈ out) :
    ∃ r0 ∈ rows, r = setTime (floorRow (deriveRow r0)) ∧
      ¬ (780 : ℚ) < (deriveRow r0).time_min := by
  rcases enrich_ok_cases rows out h with ⟨hnil, hout⟩ | ⟨hbound, hout⟩
  · rw [hout, hnil] at hr
    cases hr
  · rw [hout] at hr
    rcases List.mem_map.mp hr with ⟨r1, hr1, hr1eq⟩
    rcases List.mem_map.mp hr1 with ⟨r2, hr2, hr2eq⟩
    rcases List.mem_map.mp hr2 with ⟨r0, hr0, hr0eq⟩
    refine ⟨r0, hr0, ?_, ?_⟩
    · rw [← hr1eq, ← hr2eq, ← hr0eq]
    · exact hbound (deriveRow r0) (List.mem_map_of_mem deriveRow hr0)

/-- Characterisation of membership in the right join. -/
theorem mem_mergeRight (base : List GtfsTransfer) (supp : List TransferFtRow)
    (m : TransferRow) (hm : m ∈ mergeRight base supp) :
    ∃ s ∈ supp, m = mergedOfSuppOnly s ∨
      ∃ b ∈ base, m = mergedOfMatch b s := by
  rcases List.mem_flatMap.mp hm with ⟨s, hs, hmem⟩
  refine ⟨s, hs, ?_⟩
  by_cases hf : (base.filter (matchKey s)).isEmpty
  · rw [if_pos hf] at hmem
    rw [List.mem_singleton] at hmem
    exact Or.inl hmem
  · rw [if_neg hf] at hmem
    rcases List.mem_map.mp hmem with ⟨b, hb, hbeq⟩
    exact Or.inr ⟨b, List.mem_of_mem_filter hb, hbeq.symm⟩

/-- Shape of a successful load: the empty relation, the supplemental-
driven enrichment of an empty base feed, or the enrichment of the right
join under a nonempty base feed. -/
theorem load_ok_rows (base : List GtfsTransfer) (suppCols : List String)
    (supp : List SupplementalRow) (out : List TransferRow)
    (h : loadTransfers base suppCols supp = .ok out) :
    out = [] ∨
    (base.isEmpty = true ∧
      enrich ((supp.map mergedOfSuppDriven).map setPenalty) = .ok out) ∨
    (base.isEmpty = false ∧
      enrich ((mergeRight (base.map prepBase)
        (supp.map SupplementalRow.req)).map setPenalty) = .ok out) := by
  unfold loadTransfers at h
  split at h
  · cases h
  · by_cases hse : supp.isEmpty = true
    · rw [if_pos hse] at h
      by_cases hbe : base.isEmpty = true
      · rw [if_pos hbe] at h
        injection h with h
        exact Or.inl h.symm
      · rw [if_neg hbe] at h
        cases h
    · rw [if_neg hse] at h
      by_cases hbe : base.isEmpty = true
      · rw [if_pos hbe] at h
        by_cases hM : suppCols.contains TRANSFERS_COLUMN_MIN_TRANSFER_TIME = true
        · rw [if_pos hM] at h
          by_cases hT : suppCols.contains TRANSFERS_COLUMN_TRANSFER_TYPE = true
          · rw [if_pos hT] at h
            exact Or.inr (Or.inl ⟨hbe, h⟩)
          · rw [if_neg hT] at h
            cases h
        · rw [if_neg hM] at h
          cases h
      · rw [if_neg hbe] at h
        by_cases hM : suppCols.contains TRANSFERS_COLUMN_MIN_TRANSFER_TIME = true
        · rw [if_pos hM] at h
          cases h
        · rw [if_neg hM] at h
          by_cases hT : suppCols.contains TRANSFERS_COLUMN_TRANSFER_TYPE = true
          · rw [if_pos hT] at h
            cases h
          · rw [if_neg hT] at h
            refine Or.inr (Or.inr ⟨?_, h⟩)
            simpa using hbe

/-- Membership in a successful load output: every output row arises from
some merged row by the penalty assignment, derivation, floor and
time-fill stages, and its derived time passed the sanity bound. -/
theorem mem_of_load_ok (base : List GtfsTransfer) (suppCols : List String)
    (supp : List SupplementalRow) (out : List TransferRow) (r : TransferRow)
    (h : loadTransfers base suppCols supp = .ok out) (hr : r ∈ out) :
    ∃ m, r = setTime (floorRow (deriveRow (setPenalty m))) ∧
      ¬ (780 : ℚ) < (deriveRow (setPenalty m)).time_min := by
  rcases load_ok_rows base suppCols supp out h with hnil | ⟨_, he⟩ | ⟨_, he⟩
  · subst hnil
    exact absurd hr (List.not_mem_nil r)
  all_goals
    rcases mem_of_enrich_ok _ _ _ he hr with ⟨r0, hr0, heq, hbd⟩
    rcases List.mem_map.mp hr0 with ⟨m, _, hmeq⟩
    subst hmeq
    exact ⟨m, heq, hbd⟩

/-- Under a nonempty base feed, every successful-load output row comes
from the right join. -/
theorem mem_of_load_ok_base (base : List GtfsTransfer)
    (suppCols : List String) (supp : List SupplementalRow)
    (out : List TransferRow) (r : TransferRow)
    (h : loadTransfers base suppCols supp = .ok out)
    (hbe : base.isEmpty = false) (hr : r ∈ out) :
    ∃ m ∈ mergeRight (base.map prepBase) (supp.map SupplementalRow.req),
      r = setTime (floorRow (deriveRow (setPenalty m))) := by
  rcases load_ok_rows base suppCols supp out h with hnil | ⟨hb, _⟩ | ⟨_, he⟩
  · subst hnil
    exact absurd hr (List.not_mem_nil r)
  · rw [hb] at hbe
    cases hbe
  · rcases mem_of_enrich_ok _ _ _ he hr with ⟨r0, hr0, heq, _⟩
    rcases List.mem_map.mp hr0 with ⟨m, hmm, hmeq⟩
    subst hmeq
    exact ⟨m, hmm, heq⟩

/-- The enrichment stages do not change the join-time fields, and they set
min_transfer_time_min to min_transfer_time over 60. -/
theorem pipeline_fields (m : TransferRow) :
    (setTime (floorRow (deriveRow (setPenalty m)))).transfer_type =
      m.transfer_type ∧
    (setTime (floorRow (deriveRow (setPenalty m)))).min_transfer_time =
      m.min_transfer_time ∧
    (setTime (floorRow (deriveRow (setPenalty m)))).dist = m.dist ∧
    (setTime (floorRow (deriveRow (setPenalty m)))).min_transfer_time_min =
      m.min_transfer_time / 60 := by
  unfold setTime floorRow deriveRow setPenalty
  split <;> exact ⟨rfl, rfl, rfl, rfl⟩

/-- After the floor, time_min is either the minimum-transfer floor or the
distance-derived walk time. -/
theorem pipeline_time_min (m : TransferRow) :
    (setTime (floorRow (deriveRow (setPenalty m)))).time_min =
      m.min_transfer_time / 60 ∨
    (setTime (floorRow (deriveRow (setPenalty m)))).time_min =
      m.dist * 60 / WALK_SPEED_MILES_PER_HOUR := by
  unfold setTime floorRow deriveRow setPenalty
  split
  · exact Or.inl rfl
  · exact Or.inr rfl

/-- After the floor, time_min dominates min_transfer_time_min. -/
theorem pipeline_min_le_time (m : TransferRow) :
    (setTime (floorRow (deriveRow (setPenalty m)))).min_transfer_time_min ≤
      (setTime (floorRow (deriveRow (setPenalty m)))).time_min :=
  floorRow_min_le_time (deriveRow (setPenalty m))

/-- Rows of the right join of the prepared base feed satisfy the
minimum-transfer-time zeroing rule. -/
theorem mergeRight_type2_zero (base : List GtfsTransfer)
    (supp : List TransferFtRow) (m : TransferRow)
    (hm : m ∈ mergeRight (base.map prepBase) supp)
    (hne : m.transfer_type ≠ 2) : m.min_transfer_time = 0 := by
  rcases mem_mergeRight _ _ _ hm with ⟨s, hs, hcase⟩
  rcases hcase with heq | ⟨b, hb, heq⟩
  · rw [heq]; rfl
  · rcases List.mem_map.mp hb with ⟨b0, hb0, hbeq⟩
    subst heq
    rw [← hbeq] at hne ⊢
    show (prepBase b0).min_transfer_time = 0
    have hne2 : (prepBase b0).transfer_type ≠ 2 := hne
    unfold prepBase at hne2 ⊢
    by_cases h2 : b0.transfer_type ≠ 2
    · rw [if_pos h2]
    · rw [if_neg h2] at hne2
      exact absurd (not_not.mp h2) hne2

/-- C4 amended: for every row of the relation after a load with a
nonempty base feed — the only configuration in which the zeroing of
lines 117-119 runs — min_transfer_time is 0 whenever transfer_type is
not 2.  With an empty base feed, transfer_type and min_transfer_time
values supplied by the supplemental file itself bypass the zeroing. -/
theorem C4_amended_zeroing_needs_base (base : List GtfsTransfer)
    (suppCols : List String) (supp : List SupplementalRow)
    (out : List TransferRow)
    (h : loadTransfers base suppCols supp = .ok out)
    (hbase : base.isEmpty = false) :
    ∀ r ∈ out, r.transfer_type ≠ 2 → r.min_transfer_time = 0 := by
  intro r hr hne
  rcases mem_of_load_ok_base base suppCols supp out r h hbase hr with
    ⟨m, hm, heq⟩
  have hfields := pipeline_fields m
  have htype : r.transfer_type = m.transfer_type := by
    rw [heq]; exact hfields.1
  have hmtt : r.min_transfer_time = m.min_transfer_time := by
    rw [heq]; exact hfields.2.1
  rw [hmtt]
  exact mergeRight_type2_zero base (supp.map SupplementalRow.req) m hm
    (htype ▸ hne)

unseal Rat.add Rat.sub Rat.mul Rat.inv in
/-- Counterexample to C4 as stated: with an empty base feed, a
supplemental file carrying its own transfer_type and min_transfer_time
columns loads successfully with a type-1 row whose minimum transfer time
is 600 seconds, never zeroed. -/
theorem C4_counterexample :
    loadTransfers [] fullCols suppC4 = .ok [rowC4] ∧
    rowC4.transfer_type ≠ 2 ∧ ¬ rowC4.min_transfer_time = 0 := by decide

unseal Rat.add Rat.sub Rat.mul Rat.inv in
/-- Witness for the amended C4: a nonempty base feed with a type-1
transfer and a 300-second minimum time loads with the minimum time
zeroed. -/
theorem C4_witness : rowW4.min_transfer_time = 0 :=
  C4_amended_zeroing_needs_base baseW4 requiredTransferCols suppW4 [rowW4]
    (by decide) (by decide) rowW4 (by decide) (by decide)

/-- C5: for every row after enrichment, walk time is at least the
minimum-transfer-time floor: whenever the distance-derived walk time is
below min_transfer_time_min, time_min is raised to it. -/
theorem C5_walk_time_floored (base : List GtfsTransfer)
    (suppCols : List String) (supp : List SupplementalRow)
    (out : List TransferRow)
    (h : loadTransfers base suppCols supp = .ok out) :
    ∀ r ∈ out, r.min_transfer_time_min ≤ r.time_min := by
  intro r hr
  rcases mem_of_load_ok base suppCols supp out r h hr with ⟨m, heq, _⟩
  rw [heq]
  exact pipeline_min_le_time m

unseal Rat.add Rat.sub Rat.mul Rat.inv in
/-- Witness for C5 at the happy-path load: an empty base feed with a
supplemental file declaring both optional columns. -/
theorem C5_witness : wRow.min_transfer_time_min ≤ wRow.time_min :=
  C5_walk_time_floored [] fullCols suppH [wRow]
    (by decide) wRow (by decide)

/-- C2 amended: after a load that completes without error, every row's
distance-derived walk time (before flooring) is at most 780 minutes, and
the final time_min is at most the larger of 780 and the row's
min_transfer_time_min; the flooring step can push time_min above 780 when
the minimum transfer time itself exceeds 780 minutes. -/
theorem C2_amended_walk_time_bounds (base : List GtfsTransfer)
    (suppCols : List String) (supp : List SupplementalRow)
    (out : List TransferRow)
    (h : loadTransfers base suppCols supp = .ok out) :
    ∀ r ∈ out, r.dist * 60 / WALK_SPEED_MILES_PER_HOUR ≤ 780 ∧
      r.time_min ≤ max 780 r.min_transfer_time_min := by
  intro r hr
  rcases mem_of_load_ok base suppCols supp out r h hr with ⟨m, heq, hbd⟩
  have hderive : (deriveRow (setPenalty m)).time_min =
      m.dist * 60 / WALK_SPEED_MILES_PER_HOUR := rfl
  rw [hderive] at hbd
  have hb : m.dist * 60 / WALK_SPEED_MILES_PER_HOUR ≤ 780 := not_lt.mp hbd
  have hfields := pipeline_fields m
  constructor
  · rw [heq, hfields.2.2.1]
    exact hb
  · rw [heq, hfields.2.2.2]
    rcases pipeline_time_min m with h1 | h1
    · rw [h1]
      exact le_max_right _ _
    · rw [h1]
      exact le_trans hb (le_max_left _ _)

unseal Rat.add Rat.sub Rat.mul Rat.inv in
/-- Counterexample to C2 as stated: a minimum-time transfer of 60000
seconds with a 0.1-mile link loads without error, yet its floored
time_min is 1000 minutes, above 780. -/
theorem C2_counterexample :
    loadTransfers baseC2 requiredTransferCols suppC2 = .ok [rowC2] ∧
    ¬ rowC2.time_min ≤ 780 := by decide

unseal Rat.add Rat.sub Rat.mul Rat.inv in
/-- Witness for the amended C2 at the same counterexample input. -/
theorem C2_amended_witness :
    rowC2.dist * 60 / WALK_SPEED_MILES_PER_HOUR ≤ 780 ∧
    rowC2.time_min ≤ max 780 rowC2.min_transfer_time_min :=
  C2_amended_walk_time_bounds baseC2 requiredTransferCols suppC2 [rowC2]
    (by decide) rowC2 (by decide)

/-- Counting members of the mapped matches chunk of one supplemental row. -/
theorem countP_map_const {α β : Type} (f : α → β) (p : β → Bool)
    (l : List α) (b : Bool) (h : ∀ a, p (f a) = b) :
    (l.map f).countP p = if b then l.length else 0 := by
  induction l with
  | nil => cases b <;> rfl
  | cons a as ih =>
    rw [List.map_cons, List.countP_cons, ih, h a]
    cases b <;> simp

/-- The number of join rows one supplemental row chunk contributes whose
supplemental part equals a given row. -/
theorem countP_chunk (base : List GtfsTransfer) (t s : TransferFtRow) :
    ((if (base.filter (matchKey t)).isEmpty then [mergedOfSuppOnly t]
      else (base.filter (matchKey t)).map
        (fun b => mergedOfMatch b t)).countP
      (fun m => decide (suppPart m = s))) =
      (if t = s then max 1 (base.countP (matchKey s)) else 0) := by
  by_cases hf : (base.filter (matchKey t)).isEmpty
  · rw [if_pos hf]
    by_cases hts : t = s
    · subst hts
      have h0 : base.countP (matchKey t) = 0 := by
        rw [List.countP_eq_length_filter, List.isEmpty_iff.mp hf]
        rfl
      rw [if_pos rfl, h0]
      simp [List.countP_cons, suppPart_mergedOfSuppOnly]
    · rw [if_neg hts]
      simp [List.countP_cons, suppPart_mergedOfSuppOnly, hts]
  · rw [if_neg hf]
    by_cases hts : t = s
    · subst hts
      rw [if_pos rfl]
      rw [countP_map_const _ _ _ true
        (fun b => by simp [suppPart_mergedOfMatch])]
      rw [if_pos rfl, List.countP_eq_length_filter]
      have hne2 : base.filter (matchKey t) ≠ [] := by
        intro hnil
        rw [hnil] at hf
        exact hf rfl
      have hpos : 0 < (base.filter (matchKey t)).length :=
        List.length_pos.mpr hne2
      omega
    · rw [if_neg hts]
      rw [countP_map_const _ _ _ false
        (fun b => by simp [suppPart_mergedOfMatch, hts])]
      rfl

/-- The multiplicity of a supplemental row in the right join: its count in
the supplemental relation times the larger of 1 and the number of matching
base-feed rows. -/
theorem countP_mergeRight (base : List GtfsTransfer)
    (supp : List TransferFtRow) (s : TransferFtRow) :
    (mergeRight base supp).countP (fun m => decide (suppPart m = s)) =
      supp.countP (fun t => decide (t = s)) *
        max 1 (base.countP (matchKey s)) := by
  induction supp with
  | nil => simp [mergeRight]
  | cons t ts ih =>
    have hsplit : mergeRight base (t :: ts) =
        (if (base.filter (matchKey t)).isEmpty then [mergedOfSuppOnly t]
         else (base.filter (matchKey t)).map (fun b => mergedOfMatch b t)) ++
          mergeRight base ts := by
      unfold mergeRight
      rw [List.flatMap_cons]
    rw [hsplit, List.countP_append, ih, countP_chunk, List.countP_cons]
    by_cases hts : t = s
    · subst hts
      simp
      ring
    · simp [hts]

/-- C3 amended: a row occurring once in the supplemental input appears in
the post-join relation exactly max(1, k) times, where k is the number of
base-feed rows sharing its key — exactly once only when at most one
base-feed row matches — and every post-join row carries the key of some
supplemental row, so base-feed rows with no supplemental counterpart are
dropped. -/
theorem C3_amended_join_multiplicity (base : List GtfsTransfer)
    (supp : List TransferFtRow) (s : TransferFtRow)
    (hs : supp.countP (fun t => decide (t = s)) = 1) :
    (mergeRight base supp).countP (fun m => decide (suppPart m = s)) =
      max 1 (base.countP (matchKey s)) ∧
    ∀ m ∈ mergeRight base supp, ∃ t ∈ supp,
      m.from_stop_id = t.from_stop_id ∧ m.to_stop_id = t.to_stop_id := by
  constructor
  · rw [countP_mergeRight, hs, one_mul]
  · intro m hm
    rcases mem_mergeRight base supp m hm with ⟨t, ht, hc⟩
    rcases hc with heq | ⟨b, _, heq⟩
    · exact ⟨t, ht, by rw [heq]; exact ⟨rfl, rfl⟩⟩
    · exact ⟨t, ht, by rw [heq]; exact ⟨rfl, rfl⟩⟩

/-- Counterexample to C3 as stated: with two base-feed rows keyed (A, B),
the single supplemental row keyed (A, B) appears twice, not once, in the
post-join relation. -/
theorem C3_counterexample :
    (mergeRight (baseDup.map prepBase) [sAB]).countP
      (fun m => decide (suppPart m = sAB)) = 2 ∧
    ¬ (mergeRight (baseDup.map prepBase) [sAB]).countP
      (fun m => decide (suppPart m = sAB)) = 1 := by decide

/-- Witness for the amended C3 at the duplicate-key input: the join
multiplicity equals max(1, 2) = 2. -/
theorem C3_amended_witness :
    (mergeRight (baseDup.map prepBase) [sAB]).countP
      (fun m => decide (suppPart m = sAB)) =
      max 1 ((baseDup.map prepBase).countP (matchKey sAB)) ∧
    ∀ m ∈ mergeRight (baseDup.map prepBase) [sAB], ∃ t ∈ [sAB],
      m.from_stop_id = t.from_stop_id ∧ m.to_stop_id = t.to_stop_id :=
  C3_amended_join_multiplicity (baseDup.map prepBase) [sAB] sAB (by decide)

/-- C6 amended: if the supplemental transfers file is missing any of the
six required columns, the load fails — but with a bare assertion error
that names neither the missing column nor the file, not with the
input-format error. -/
theorem C6_amended_missing_column_asserts (base : List GtfsTransfer)
    (suppCols : List String) (supp : List SupplementalRow)
    (h : ∃ c ∈ requiredTransferCols, suppCols.contains c = false) :
    loadTransfers base suppCols supp = .error .assertionError := by
  have hall : requiredTransferCols.all
      (fun c => suppCols.contains c) = false := by
    rcases h with ⟨c, hc, hfc⟩
    rw [List.all_eq_false]
    exact ⟨c, hc, by rw [hfc]; exact Bool.false_ne_true⟩
  unfold loadTransfers checkRequiredColumns
  rw [hall, if_neg Bool.false_ne_true]

/-- Counterexample to C6 as stated: a supplemental file missing the dist
column fails the load with a plain AssertionError, which is not an
input-format (network-input) error and carries no column name. -/
theorem C6_counterexample :
    loadTransfers [] colsMissingDist [] = .error .assertionError ∧
    LoadError.isNetworkInput LoadError.assertionError = false := by decide

/-- Witness for the amended C6 at the missing-dist input. -/
theorem C6_amended_witness :
    loadTransfers [] colsMissingDist [] = .error .assertionError :=
  C6_amended_missing_column_asserts [] colsMissingDist []
    ⟨TRANSFERS_COLUMN_DISTANCE, by decide, by decide⟩

/-- C7: no row of the exported reshape comes from an infeasible transfer:
every output row originates from a source row with transfer_type other
than 3 (in particular any exported transfer_type value differs from 3),
while the in-memory relation keeps its type-3 rows unchanged. -/
theorem C7_export_excludes_infeasible (st : TransferState) (fs : FS) :
    (writeTransfersForExtension st fs).1.transfers_df = st.transfers_df ∧
    ∀ o ∈ exportRows st.transfers_df,
      (o.attr_name = TRANSFERS_COLUMN_TRANSFER_TYPE → o.attr_value ≠ 3) ∧
      ∃ r ∈ st.transfers_df, r.transfer_type ≠ 3 ∧
        o.from_stop_id_num = r.from_stop_id_num ∧
        o.to_stop_id_num = r.to_stop_id_num := by
  refine ⟨rfl, ?_⟩
  intro o ho
  rcases List.mem_flatMap.mp ho with ⟨r, hrf, hor⟩
  have hr3 : r.transfer_type ≠ 3 := by
    have hmem := (List.mem_filter.mp hrf).2
    simpa using hmem
  have hrm : r ∈ st.transfers_df := List.mem_of_mem_filter hrf
  rcases List.mem_map.mp hor with ⟨av, hav, hoeq⟩
  subst hoeq
  refine ⟨?_, r, hrm, hr3, rfl, rfl⟩
  intro hname h3
  have hname2 : av.1 = TRANSFERS_COLUMN_TRANSFER_TYPE := hname
  have h3b : av.2 = (3 : ℚ) := h3
  simp only [transferAttrs, List.mem_cons, List.not_mem_nil, or_false] at hav
  rcases hav with h | h | h | h | h | h <;> rw [h] at hname2 h3b
  · simp at h3b
    exact hr3 (by exact_mod_cast h3b)
  all_goals
    simp only [TRANSFERS_COLUMN_DISTANCE, TRANSFERS_COLUMN_PENALTY,
      TRANSFERS_COLUMN_MIN_TRANSFER_TIME_MIN, TRANSFERS_COLUMN_TIME_MIN,
      TRANSFERS_COLUMN_TRANSFER_TYPE] at hname2
    simp at hname2

unseal Rat.add Rat.sub Rat.mul Rat.inv in
/-- Witness for C7: the first export row of a state holding one
infeasible and one feasible link comes from the feasible link. -/
theorem C7_witness :
    (oW.attr_name = TRANSFERS_COLUMN_TRANSFER_TYPE → oW.attr_value ≠ 3) ∧
    ∃ r ∈ stW.transfers_df, r.transfer_type ≠ 3 ∧
      oW.from_stop_id_num = r.from_stop_id_num ∧
      oW.to_stop_id_num = r.to_stop_id_num :=
  (C7_export_excludes_infeasible stW []).2 oW (by decide)

/-- Overwriting a file twice with the same content is the same as
writing it once. -/
theorem fsWrite_twice (fs : FS) (n c : String) :
    fsWrite (fsWrite fs n c) n c = fsWrite fs n c := by
  unfold fsWrite
  congr 1
  rw [List.filter_cons_of_neg (by simp)]
  rw [List.filter_filter]
  simp

/-- C8: the export step is idempotent: running it a second time on the
state and output directory produced by the first run reproduces them
byte for byte. -/
theorem C8_export_idempotent (st : TransferState) (fs : FS) :
    writeTransfersForExtension (writeTransfersForExtension st fs).1
      (writeTransfersForExtension st fs).2 =
      writeTransfersForExtension st fs := by
  unfold writeTransfersForExtension
  exact congrArg (Prod.mk st) (fsWrite_twice fs _ _)

/-- C9: the export step operates on a copy: the shared transfers relation
(and the whole state) is unchanged after the call. -/
theorem C9_export_preserves_relation (st : TransferState) (fs : FS) :
    (writeTransfersForExtension st fs).1 = st := rfl

/-- C10: on an empty merged relation, add_numeric_stop_id resolves
nothing and never reaches the export step, so the output directory is
untouched. -/
theorem C10_empty_relation_skips_export (st : TransferState)
    (resolver : String → Option Int) (fs : FS)
    (h : st.transfers_df = []) :
    addNumericStopId st resolver fs = (st, fs) := by
  unfold addNumericStopId
  rw [h]
  rfl

/-- Witness for C10 at the empty state. -/
theorem C10_witness : addNumericStopId stE (fun _ => none) [] = (stE, []) :=
  C10_empty_relation_skips_export stE (fun _ => none) [] rfl

end FastTrips
